import Mathlib

/-!
Verification development for the Night Train narrative engine
(vanilla-JavaScript single-page game, main module `part_001`).

The JavaScript is shallowly embedded: JS numbers that the engine keeps
integral are modelled as `Int` (the one fractional field, `bgmVolume`,
as `Rat`), objects as records or association lists, and the stateful
functions as pure state-passing functions.  Each definition carries a
note naming the source function it translates.
-/

namespace NightTrain

/-- Flag values are booleans or strings (flags map of the world state). -/
inductive FlagVal where
  | b (v : Bool)
  | s (v : String)
deriving DecidableEq, Repr

/-- One entry of `worldState.dialogHistory` (see `addToHistory`). -/
structure DialogEntry where
  role : String
  text : String
  sceneTitle : String
  npcName : String
  timestamp : Int
deriving DecidableEq, Repr

/-- The canonical world state, translated field-for-field from
`DEFAULT_STATE` in the source.  Numeric fields are `Int` (the engine
only ever stores integers in them); `bgmVolume` is `Rat` because its
default is 0.5. -/
structure WorldState where
  loop : Int
  train_stability : Int
  reality_noise : Int
  inspector_trust : Int
  anomaly_awareness : Int
  flags : List (String × FlagVal)
  playedScenes : List String
  currentSceneId : String
  sceneCount : Int
  turnCount : Int
  dialogHistory : List DialogEntry
  bgmVolume : Rat
  isBgmMuted : Bool
deriving DecidableEq, Repr

/-- `DEFAULT_STATE` from the source. -/
def DEFAULT_STATE : WorldState :=
  { loop := 1
    train_stability := 80
    reality_noise := 0
    inspector_trust := 30
    anomaly_awareness := 0
    flags := []
    playedScenes := []
    currentSceneId := "start"
    sceneCount := 0
    turnCount := 0
    dialogHistory := []
    bgmVolume := (1 : Rat) / 2
    isBgmMuted := false }

/-- `clamp(value, min, max) = Math.max(min, Math.min(max, value))`. -/
def clamp (value lo hi : Int) : Int := max lo (min hi value)

/-- One iteration of the `for (const [key, value] of Object.entries(effects))`
loop of `applyEffects`: the key is applied when it is a field of
`worldState` other than `flags` and `playedScenes`, by add-and-clamp
into [0,100].  The non-numeric fields `currentSceneId`, `dialogHistory`
and `isBgmMuted` also pass the source's `key in worldState` test, but
JS `+`/`Math.min` coerces them to NaN-tainted numbers there; those three
keys are outside this integer model (modelled as unchanged) and every
theorem about field preservation restricts deltas away from them.
Keys absent from the world state are skipped. -/
def applyEffectStep (s : WorldState) (kv : String × Int) : WorldState :=
  if kv.1 = "loop" then { s with loop := clamp (s.loop + kv.2) 0 100 }
  else if kv.1 = "train_stability" then
    { s with train_stability := clamp (s.train_stability + kv.2) 0 100 }
  else if kv.1 = "reality_noise" then
    { s with reality_noise := clamp (s.reality_noise + kv.2) 0 100 }
  else if kv.1 = "inspector_trust" then
    { s with inspector_trust := clamp (s.inspector_trust + kv.2) 0 100 }
  else if kv.1 = "anomaly_awareness" then
    { s with anomaly_awareness := clamp (s.anomaly_awareness + kv.2) 0 100 }
  else if kv.1 = "sceneCount" then
    { s with sceneCount := clamp (s.sceneCount + kv.2) 0 100 }
  else if kv.1 = "turnCount" then
    { s with turnCount := clamp (s.turnCount + kv.2) 0 100 }
  else if kv.1 = "bgmVolume" then
    { s with bgmVolume := max 0 (min 100 (s.bgmVolume + (kv.2 : Rat))) }
  else s

/-- `applyEffects(effects)` from the source, as a pure function of the
world state.  The derived screen-shake notification and the BGM track
switch are presentation effects carrying no world-state mutation and
are not modelled. -/
def applyEffects (s : WorldState) (effects : List (String × Int)) : WorldState :=
  effects.foldl applyEffectStep s

/-- The `condition` predicates of the `ENDINGS` table, keyed by ending
id exactly as in the source (`turn_limit` is in the table but not in
`checkEndings`'s order list). -/
def endingCondition (id : String) (state : WorldState) : Bool :=
  if id = "train_anomaly" then state.train_stability ≤ 25
  else if id = "detained" then state.inspector_trust ≥ 75 && state.reality_noise < 60
  else if id = "awakening" then state.reality_noise ≥ 90 || state.anomaly_awareness ≥ 90
  else if id = "normal_arrival" then state.sceneCount ≥ 50
  else if id = "turn_limit" then state.turnCount ≥ 15
  else false

/-- The `endingOrder` list of `checkEndings`. -/
def endingOrder : List String := ["train_anomaly", "detained", "awakening", "normal_arrival"]

/-- The loop body of `checkEndings`: walk the order, return the first id
whose condition holds, except that `normal_arrival` is skipped
(`continue`) while `sceneCount < 5`. -/
def checkEndingsGo (st : WorldState) : List String → Option String
  | [] => none
  | id :: rest =>
    if endingCondition id st then
      if id = "normal_arrival" ∧ st.sceneCount < 5 then checkEndingsGo st rest
      else some id
    else checkEndingsGo st rest

/-- `checkEndings()` from the source. -/
def checkEndings (st : WorldState) : Option String := checkEndingsGo st endingOrder

/-- Modelled from the spec sentence for ending evaluation: walk the fixed
priority list and return the first ending whose predicate is true, where
the fallback `normal_arrival` ending additionally requires the scene
count to reach the authored minimum (5).  Used only to compare against
`checkEndings`. -/
def checkEndingsSpec (st : WorldState) : Option String :=
  endingOrder.find? fun id =>
    endingCondition id st && (id ≠ "normal_arrival" || st.sceneCount ≥ 5)

/-- `startNextLoop()` from the source, with the two `randomInt` draws
(`randomInt(75,85)` for stability, `randomInt(20,40)` for trust) passed
in as parameters `r1` and `r2`.  The location-history / UI resets are
presentation only and not modelled. -/
def startNextLoop (s : WorldState) (r1 r2 : Int) : WorldState :=
  { s with
    loop := s.loop + 1
    train_stability := r1
    reality_noise := min 100 (s.reality_noise + 5)
    inspector_trust := r2
    anomaly_awareness := min 100 (Int.fdiv s.anomaly_awareness 2 + 10)
    playedScenes := []
    currentSceneId := "start"
    sceneCount := 0
    turnCount := 0 }

/-- A JS value as read from a world-state field by `worldState[key]`
inside `checkConditions`: a number, a string, or a boolean.  Arrays and
objects reach comparison operators only through their string coercion,
so `stateLookup` renders them as the string JS would coerce them to. -/
inductive JsVal where
  | num (q : Rat)
  | str (v : String)
  | boolv (v : Bool)
deriving DecidableEq, Repr

/-- Dynamic field lookup `worldState[key]`: `some` for the fields of the
state object, `none` for `undefined` (unknown key).  Arrays render as
their JS `toString` (elements joined by commas; `dialogHistory` entries
are plain objects, printed `[object Object]`). -/
def stateLookup (st : WorldState) (key : String) : Option JsVal :=
  if key = "loop" then some (.num st.loop)
  else if key = "train_stability" then some (.num st.train_stability)
  else if key = "reality_noise" then some (.num st.reality_noise)
  else if key = "inspector_trust" then some (.num st.inspector_trust)
  else if key = "anomaly_awareness" then some (.num st.anomaly_awareness)
  else if key = "sceneCount" then some (.num st.sceneCount)
  else if key = "turnCount" then some (.num st.turnCount)
  else if key = "bgmVolume" then some (.num st.bgmVolume)
  else if key = "currentSceneId" then some (.str st.currentSceneId)
  else if key = "isBgmMuted" then some (.boolv st.isBgmMuted)
  else if key = "flags" then some (.str "[object Object]")
  else if key = "playedScenes" then some (.str (String.intercalate "," st.playedScenes))
  else if key = "dialogHistory" then
    some (.str (String.intercalate "," (st.dialogHistory.map fun _ => "[object Object]")))
  else none

/-- JS whitespace (the characters matched by `\s` and stripped by
`String.prototype.trim`), restricted to the code points the engine can
meet: space, tab, LF, CR, VT, FF and NBSP. -/
def isJsWsChar (c : Char) : Bool :=
  c = ' ' || c = '\t' || c = '\n' || c = '\r' || c = '\x0b' || c = '\x0c' || c = ' '

/-- `String.prototype.trim` on a character list. -/
def jsTrimList (s : List Char) : List Char :=
  ((s.dropWhile isJsWsChar).reverse.dropWhile isJsWsChar).reverse

/-- `String.prototype.trim`. -/
def jsTrim (s : String) : String := ⟨jsTrimList s.data⟩

/-- `Number(string)` coercion, on the fragment the engine can produce:
an all-whitespace string is 0, an optionally signed decimal integer
string is its value, anything else is NaN (`none`).  Fractional and
exponent literals are outside the model. -/
def jsStringToNumber (s : String) : Option Rat :=
  let t := jsTrimList s.data
  if t = [] then some 0
  else
    let (sign, digits) :=
      match t with
      | '-' :: rest => ((-1 : Rat), rest)
      | '+' :: rest => ((1 : Rat), rest)
      | _ => ((1 : Rat), t)
    if digits ≠ [] ∧ digits.all Char.isDigit then
      some (sign * (digits.foldl (fun acc c => acc * 10 + (c.toNat - '0'.toNat)) (0 : Nat) : Nat))
    else none

/-- JS `ToNumber` as used by the relational operators in
`checkConditions`: numbers are themselves, booleans are 0/1, strings
parse numerically (NaN is `none`). -/
def jsToNumber : JsVal → Option Rat
  | .num q => some q
  | .boolv b => some (if b then 1 else 0)
  | .str s => jsStringToNumber s

/-- JS `value < bound` with NaN comparing false. -/
def jsLt (v : JsVal) (bound : Rat) : Bool :=
  match jsToNumber v with
  | some q => q < bound
  | none => false

/-- JS `value > bound` with NaN comparing false. -/
def jsGt (v : JsVal) (bound : Rat) : Bool :=
  match jsToNumber v with
  | some q => q > bound
  | none => false

/-- JS strict equality `value === requirement` against a numeric
requirement: true only for an equal number. -/
def jsStrictEqNum (v : JsVal) (q : Rat) : Bool :=
  match v with
  | .num r => r = q
  | _ => false

/-- A requirement attached to one key of a `conditions` object:
an exact numeric match, a bounds object (`min`/`max`/`gte`/`lte`,
each optional), or — under the key `flags` — a flag-equality map. -/
inductive Req where
  | num (q : Rat)
  | range (lo hi gte lte : Option Rat)
  | flagMap (fs : List (String × FlagVal))
deriving DecidableEq, Repr

/-- `worldState.flags[name]` (`none` = absent / `undefined`). -/
def lookupFlag (flags : List (String × FlagVal)) (name : String) : Option FlagVal :=
  (flags.find? fun p => p.1 = name).map Prod.snd

/-- `worldState.flags[flagName] !== flagValue`, negated: true when the
flag is present with exactly the required value. -/
def flagEq (actual : Option FlagVal) (required : FlagVal) : Bool :=
  match actual with
  | some v => v = required
  | none => false

/-- One iteration of the `checkConditions` loop: does this
`[key, requirement]` entry let the loop continue (no `return false`)?
Under the key `flags` every flag equality must hold; otherwise a key
that is `undefined` on the world state is skipped (continue); a known
value must strictly equal an exact numeric requirement; a bounds object
fails only on a supplied violated bound (a bounds object under a
non-numeric value compares through `ToNumber`, NaN passing). -/
def evalConditionEntry (st : WorldState) (e : String × Req) : Bool :=
  if e.1 = "flags" then
    match e.2 with
    | .flagMap fs => fs.all fun p => flagEq (lookupFlag st.flags p.1) p.2
    | _ => true
  else
    match stateLookup st e.1 with
    | none => true
    | some v =>
      match e.2 with
      | .num q => jsStrictEqNum v q
      | .range lo hi gte lte =>
        !(lo.any fun m => jsLt v m) && !(hi.any fun m => jsGt v m) &&
        !(gte.any fun m => jsLt v m) && !(lte.any fun m => jsGt v m)
      | .flagMap _ => true

/-- `checkConditions(conditions)` from the source: every entry must let
the loop continue. -/
def checkConditions (conds : List (String × Req)) (st : WorldState) : Bool :=
  conds.all (evalConditionEntry st)

/-- The module-level mutable session state of the dialogue manager:
`lastRequestTime`, `isStreaming`, and `worldState.turnCount` (the only
world-state field the admission path mutates).  Times are epoch
milliseconds. -/
structure ChatState where
  lastRequestTime : Int
  isStreaming : Bool
  turnCount : Int
deriving DecidableEq, Repr

/-- Outcome of one `handleChatSubmit` call. -/
inductive SubmitOutcome where
  | rejected
  | turnLimitEnding
  | streamStarted
deriving DecidableEq, Repr

/-- `REQUEST_COOLDOWN_MS` from the source. -/
def REQUEST_COOLDOWN_MS : Int := 1500

/-- `handleChatSubmit()` from the source, reduced to its session-state
transitions: empty (trimmed) input returns; within-cooldown input
returns; the abort of a superseded controller is a cooperative signal
with no synchronous state change, after which a still-streaming session
also returns; an admitted turn records `lastRequestTime`, increments the
turn counter, then either fires the `turn_limit` ending (without
starting a stream) or starts streaming.  DOM and history side effects
are presentation only. -/
def handleChatSubmit (s : ChatState) (text : String) (now : Int) :
    ChatState × SubmitOutcome :=
  if jsTrim text = "" then (s, .rejected)
  else if now - s.lastRequestTime < REQUEST_COOLDOWN_MS then (s, .rejected)
  else if s.isStreaming then (s, .rejected)
  else
    let s1 : ChatState :=
      { s with lastRequestTime := now, turnCount := s.turnCount + 1 }
    if s1.turnCount ≥ 15 then ({ s1 with isStreaming := false }, .turnLimitEnding)
    else ({ s1 with isStreaming := true }, .streamStarted)

/-- The `finally` block of `handleChatSubmit`: the streaming session has
settled (completed, failed or been aborted) and `isStreaming` is
cleared. -/
def streamSettled (s : ChatState) : ChatState := { s with isStreaming := false }

/-- How the `while (true)` read loop of `streamLLM` can end. -/
inductive LoopOutcome where
  | stalled
  | completed
  | hung
deriving DecidableEq, Repr

/-- The read loop of `streamLLM`, abstracted over time: `top` is the
clock at the loop head, `last` the current `lastChunkTime`, `events`
the arrival times of the remaining chunks, and `closes` whether the
stream eventually closes (`done`).  The loop head checks the stall
window, then awaits `reader.read()`; a resolved read sets
`lastChunkTime` to its arrival time and, processing being synchronous
and immediate, the next loop head runs at that same time.  When no
chunk remains and the stream never closes, the await never resolves. -/
def readLoopGo (closes : Bool) : Int → Int → List Int → LoopOutcome
  | top, last, [] =>
    if top - last > 15000 then .stalled
    else if closes then .completed else .hung
  | top, last, a :: rest =>
    if top - last > 15000 then .stalled
    else readLoopGo closes a a rest

/-- The read loop of `streamLLM` started at time `t0`
(`lastChunkTime = Date.now()` runs right before the loop). -/
def streamReadLoop (t0 : Int) (events : List Int) (closes : Bool) : LoopOutcome :=
  readLoopGo closes t0 t0 events

/-- The 45-second `setTimeout` callback of `streamLLM`: it only logs a
warning when the signal is not yet aborted; it performs no abort, so it
maps the abort state to itself. -/
def hardTimeoutHandler (aborted : Bool) : Bool := aborted

/-- Consume a literal pattern case-insensitively (the `i` flag of the
reasoning-marker regexes); returns the remainder on success. -/
def stripCaseless : List Char → List Char → Option (List Char)
  | [], s => some s
  | _ :: _, [] => none
  | p :: ps, c :: cs => if c.toLower = p.toLower then stripCaseless ps cs else none

/-- Consume a literal pattern exactly; returns the remainder on
success. -/
def stripExact : List Char → List Char → Option (List Char)
  | [], s => some s
  | _ :: _, [] => none
  | p :: ps, c :: cs => if c = p then stripExact ps cs else none

/-- Match the opening reasoning marker `<\s*think\s*>` (case and
whitespace tolerant) at the head of the list; returns the remainder. -/
def matchOpenMarker (s : List Char) : Option (List Char) :=
  match s with
  | '<' :: rest =>
    match stripCaseless ['t', 'h', 'i', 'n', 'k'] (rest.dropWhile isJsWsChar) with
    | some rest2 =>
      match rest2.dropWhile isJsWsChar with
      | '>' :: r => some r
      | _ => none
    | none => none
  | _ => none

/-- Match the marker head `<\s*think` (the split pattern for an unclosed
opening marker) at the head of the list; returns the remainder. -/
def matchOpenStart (s : List Char) : Option (List Char) :=
  match s with
  | '<' :: rest => stripCaseless ['t', 'h', 'i', 'n', 'k'] (rest.dropWhile isJsWsChar)
  | _ => none

/-- Match the closing reasoning marker `<\s*/\s*think\s*>` at the head
of the list; returns the remainder. -/
def matchCloseMarker (s : List Char) : Option (List Char) :=
  match s with
  | '<' :: rest =>
    match rest.dropWhile isJsWsChar with
    | '/' :: rest2 =>
      match stripCaseless ['t', 'h', 'i', 'n', 'k'] (rest2.dropWhile isJsWsChar) with
      | some rest3 =>
        match rest3.dropWhile isJsWsChar with
        | '>' :: r => some r
        | _ => none
      | none => none
    | _ => none
  | _ => none

/-- Lazy search of `[\s\S]*?` up to the first closing marker: skip to
just after the earliest closing marker, if any. -/
def skipToAfterClose : List Char → Option (List Char)
  | [] => none
  | c :: cs =>
    match matchCloseMarker (c :: cs) with
    | some rest => some rest
    | none => skipToAfterClose cs

/-- The global replace `/<\s*think\s*>[\s\S]*?<\s*\/\s*think\s*>/gi → ""`:
left-to-right scan, each opening marker paired lazily with the earliest
closing marker after it and the whole span dropped; an opening marker
with no closing marker is kept and scanning resumes one character on.
Fuel is the input length; every recursive call consumes at least one
character, so the fuel never runs out. -/
def removeThinkSpansFuel : Nat → List Char → List Char
  | 0, s => s
  | _ + 1, [] => []
  | n + 1, c :: cs =>
    match matchOpenMarker (c :: cs) with
    | some afterOpen =>
      match skipToAfterClose afterOpen with
      | some afterClose => removeThinkSpansFuel n afterClose
      | none => c :: removeThinkSpansFuel n cs
    | none => c :: removeThinkSpansFuel n cs

/-- Step 1 of the display filter of `streamLLM`. -/
def removeThinkSpans (s : List Char) : List Char := removeThinkSpansFuel s.length s

/-- The global replace `/<\s*\/\s*think\s*>/gi → ""` (orphaned closing
markers). -/
def removeCloseMarkersFuel : Nat → List Char → List Char
  | 0, s => s
  | _ + 1, [] => []
  | n + 1, c :: cs =>
    match matchCloseMarker (c :: cs) with
    | some rest => removeCloseMarkersFuel n rest
    | none => c :: removeCloseMarkersFuel n cs

/-- Step 3 of the display filter of `streamLLM`. -/
def removeCloseMarkers (s : List Char) : List Char := removeCloseMarkersFuel s.length s

/-- `String.prototype.includes`: does `pat` occur as a (case-sensitive)
contiguous sublist? -/
def containsSub (pat : List Char) : List Char → Bool
  | [] => pat.isPrefixOf ([] : List Char)
  | c :: cs => pat.isPrefixOf (c :: cs) || containsSub pat cs

/-- `split(/<\s*think/i)[0]`: everything before the earliest tolerant
marker head. -/
def truncAtOpenStart : List Char → List Char
  | [] => []
  | c :: cs =>
    match matchOpenStart (c :: cs) with
    | some _ => []
    | none => c :: truncAtOpenStart cs

/-- Step 2 of the display filter of `streamLLM`: the unclosed-marker
guard is the case-sensitive literal `includes('<think')`; only when it
fires is the text truncated at the earliest tolerant marker head. -/
def suppressUnclosed (s : List Char) : List Char :=
  if containsSub ("<think".data) s then truncAtOpenStart s else s

/-- Everything before the first occurrence of `pat` (the whole list when
`pat` does not occur). -/
def takeUntilSub (pat : List Char) : List Char → List Char
  | [] => []
  | c :: cs => if pat.isPrefixOf (c :: cs) then [] else c :: takeUntilSub pat cs

/-- The candidate narrative of an increment: everything before the first
```` ```json ```` fence (`fullContent.split('```json')[0]` guarded by
`includes`). -/
def currentNarrativeOf (full : List Char) : List Char :=
  if containsSub ("```json".data) full then takeUntilSub ("```json".data) full else full

/-- The display filter applied on every increment of `streamLLM`:
strip complete reasoning spans, apply the unclosed-marker guard,
strip orphaned closing markers, trim. -/
def displayNarrativeList (cur : List Char) : List Char :=
  jsTrimList (removeCloseMarkers (suppressUnclosed (removeThinkSpans cur)))

/-- Displayed narrative computed from the accumulated raw stream
content. -/
def displayOf (full : String) : String :=
  ⟨displayNarrativeList (currentNarrativeOf full.data)⟩

/-- Skip to just after the first occurrence of `pat`, if any. -/
def afterFirstSub (pat : List Char) : List Char → Option (List Char)
  | [] => if pat.isPrefixOf ([] : List Char) then some ([] : List Char) else none
  | c :: cs =>
    if pat.isPrefixOf (c :: cs) then some ((c :: cs).drop pat.length)
    else afterFirstSub pat cs

/-- The capture group of `fullContent.match(/```json\s*([\s\S]*?)(?:```|$)/)`:
after the first ```` ```json ```` skip whitespace greedily, then capture
lazily up to the earliest closing fence — or, when no closing fence
follows, up to the end of input. -/
def extractJsonBlock (full : List Char) : Option (List Char) :=
  match afterFirstSub ("```json".data) full with
  | none => none
  | some rest => some (takeUntilSub ("```".data) (rest.dropWhile isJsWsChar))

/-- The global replace `/:\s*\+(\d+)/g → ':$1'` of `streamLLM` (strip a
stray `+` after a colon before digits; the whitespace of the match is
dropped with it).  Fuel is the input length. -/
def cleanPlusFuel : Nat → List Char → List Char
  | 0, s => s
  | _ + 1, [] => []
  | n + 1, c :: cs =>
    if c = ':' then
      match cs.dropWhile isJsWsChar with
      | '+' :: ds =>
        let digits := ds.takeWhile Char.isDigit
        if digits = [] then c :: cleanPlusFuel n cs
        else c :: (digits ++ cleanPlusFuel n (ds.dropWhile Char.isDigit))
      | _ => c :: cleanPlusFuel n cs
    else c :: cleanPlusFuel n cs

/-- The `+`-repair pass before `JSON.parse`. -/
def cleanPlus (s : List Char) : List Char := cleanPlusFuel s.length s

/-- A parsed JSON value.  Numeric literals are modelled as integers:
the engine's directive format mandates integer values, and a fraction
or exponent form is treated as a parse failure. -/
inductive Json where
  | null
  | boolv (b : Bool)
  | num (n : Int)
  | str (s : String)
  | arr (xs : List Json)
  | obj (fields : List (String × Json))
deriving Repr

/-- JSON insignificant whitespace. -/
def skipJsonWs (s : List Char) : List Char :=
  s.dropWhile fun c => c = ' ' || c = '\t' || c = '\n' || c = '\r'

/-- One hexadecimal digit. -/
def parseHexDigit (c : Char) : Option Nat :=
  if c.isDigit then some (c.toNat - '0'.toNat)
  else if 'a' ≤ c ∧ c ≤ 'f' then some (c.toNat - 'a'.toNat + 10)
  else if 'A' ≤ c ∧ c ≤ 'F' then some (c.toNat - 'A'.toNat + 10)
  else none

/-- JSON string body after the opening quote: returns the decoded
content and the remainder after the closing quote.  Fuel is the input
length plus one. -/
def parseStringBody : Nat → List Char → Option (List Char × List Char)
  | 0, _ => none
  | _ + 1, [] => none
  | n + 1, c :: cs =>
    if c = '"' then some (([] : List Char), cs)
    else if c = '\\' then
      match cs with
      | [] => none
      | e :: cs2 =>
        if e = 'u' then
          match cs2 with
          | h1 :: h2 :: h3 :: h4 :: cs3 =>
            match parseHexDigit h1, parseHexDigit h2, parseHexDigit h3, parseHexDigit h4 with
            | some a, some b, some c4, some d =>
              match parseStringBody n cs3 with
              | some (content, rest) =>
                some (Char.ofNat (((a * 16 + b) * 16 + c4) * 16 + d) :: content, rest)
              | none => none
            | _, _, _, _ => none
          | _ => none
        else
          let esc : Option Char :=
            if e = '"' then some '"'
            else if e = '\\' then some '\\'
            else if e = '/' then some '/'
            else if e = 'b' then some '\x08'
            else if e = 'f' then some '\x0c'
            else if e = 'n' then some '\n'
            else if e = 'r' then some '\r'
            else if e = 't' then some '\t'
            else none
          match esc with
          | some ch =>
            match parseStringBody n cs2 with
            | some (content, rest) => some (ch :: content, rest)
            | none => none
          | none => none
    else
      match parseStringBody n cs with
      | some (content, rest) => some (c :: content, rest)
      | none => none

/-- JSON numeric literal (integer fragment): optional minus, digits with
no leading zero, rejected when a fraction or exponent follows. -/
def parseJsonNumber (s : List Char) : Option (Json × List Char) :=
  let (neg, s1) :=
    match s with
    | '-' :: rest => (true, rest)
    | _ => (false, s)
  let digits := s1.takeWhile Char.isDigit
  let rest := s1.dropWhile Char.isDigit
  if digits = [] then none
  else if digits.length > 1 ∧ digits.head? = some '0' then none
  else
    match rest with
    | c :: _ =>
      if c = '.' || c = 'e' || c = 'E' then none
      else
        let v : Int := (digits.foldl (fun acc ch => acc * 10 + (ch.toNat - '0'.toNat)) (0 : Nat) : Nat)
        some (.num (if neg then -v else v), rest)
    | [] =>
      let v : Int := (digits.foldl (fun acc ch => acc * 10 + (ch.toNat - '0'.toNat)) (0 : Nat) : Nat)
      some (.num (if neg then -v else v), rest)

mutual

/-- Recursive-descent `JSON.parse` on the directive text: parse one
value, returning it with the remainder.  Fuel bounds the recursion;
every call consumes at least one input character, so input length plus
one is always enough. -/
def parseJsonValue : Nat → List Char → Option (Json × List Char)
  | 0, _ => none
  | n + 1, input =>
    match skipJsonWs input with
    | [] => none
    | c :: cs =>
      if c = '\x7b' then
        match skipJsonWs cs with
        | '\x7d' :: rest => some (.obj [], rest)
        | cs2 => parseObjFields n cs2 []
      else if c = '[' then
        match skipJsonWs cs with
        | ']' :: rest => some (.arr [], rest)
        | cs2 => parseArrItems n cs2 []
      else if c = '"' then
        match parseStringBody (cs.length + 1) cs with
        | some (content, rest) => some (.str ⟨content⟩, rest)
        | none => none
      else if c = 't' then
        match stripExact ['r', 'u', 'e'] cs with
        | some rest => some (.boolv true, rest)
        | none => none
      else if c = 'f' then
        match stripExact ['a', 'l', 's', 'e'] cs with
        | some rest => some (.boolv false, rest)
        | none => none
      else if c = 'n' then
        match stripExact ['u', 'l', 'l'] cs with
        | some rest => some (.null, rest)
        | none => none
      else parseJsonNumber (c :: cs)

/-- Object members after the opening brace (nonempty case). -/
def parseObjFields : Nat → List Char → List (String × Json) →
    Option (Json × List Char)
  | 0, _, _ => none
  | n + 1, input, acc =>
    match skipJsonWs input with
    | '"' :: cs =>
      match parseStringBody (cs.length + 1) cs with
      | some (key, afterKey) =>
        match skipJsonWs afterKey with
        | ':' :: afterColon =>
          match parseJsonValue n afterColon with
          | some (v, afterVal) =>
            match skipJsonWs afterVal with
            | ',' :: rest => parseObjFields n rest (acc ++ [(⟨key⟩, v)])
            | '\x7d' :: rest => some (.obj (acc ++ [(⟨key⟩, v)]), rest)
            | _ => none
          | none => none
        | _ => none
      | none => none
    | _ => none

/-- Array items after the opening bracket (nonempty case). -/
def parseArrItems : Nat → List Char → List Json → Option (Json × List Char)
  | 0, _, _ => none
  | n + 1, input, acc =>
    match parseJsonValue n input with
    | some (v, afterVal) =>
      match skipJsonWs afterVal with
      | ',' :: rest => parseArrItems n rest (acc ++ [v])
      | ']' :: rest => some (.arr (acc ++ [v]), rest)
      | _ => none
    | none => none

end

/-- `JSON.parse`: one value followed only by whitespace. -/
def parseJson (s : String) : Option Json :=
  match parseJsonValue (s.length + 1) s.data with
  | some (v, rest) => if skipJsonWs rest = [] then some v else none
  | none => none

/-- Property read `gameLogic[key]` (for duplicate keys `JSON.parse`
keeps the last value). -/
def getField (j : Json) (key : String) : Option Json :=
  match j with
  | .obj fields => (fields.reverse.find? fun p => p.1 = key).map Prod.snd
  | _ => none

/-- JS truthiness of a parsed JSON value. -/
def jsTruthy : Json → Bool
  | .null => false
  | .boolv b => b
  | .num n => n ≠ 0
  | .str s => s ≠ ""
  | .arr _ => true
  | .obj _ => true

/-- `Object.entries(gameLogic.effects)` as consumed by `applyEffects`:
the integer-valued members of an object (non-objects contribute no
world-state keys; a non-numeric member value would NaN-corrupt the stat
through JS coercion and is outside the integer model — no theorem
depends on that branch). -/
def effectsEntries (j : Json) : List (String × Int) :=
  match j with
  | .obj fields =>
    fields.filterMap fun p =>
      match p.2 with
      | .num n => some (p.1, n)
      | _ => none
  | _ => []

/-- The directive text of the settle phase of `streamLLM` after
extraction, trim, the single-brace repair and the `+` repair, parsed
with `JSON.parse` — `none` is a logged parse failure (or no fence at
all). -/
def settleParse (full : String) : Option Json :=
  match extractJsonBlock full.data with
  | none => none
  | some raw =>
    let j0 := jsTrimList raw
    let j1 :=
      if j0.getLast? ≠ some '\x7d' ∧ j0.count '\x7b' > j0.count '\x7d' then
        j0 ++ ['\x7d']
      else j0
    parseJson ⟨cleanPlus j1⟩

/-- The settle phase of `streamLLM` as a world-state transformer: on a
parsed directive with truthy `effects`, apply them; otherwise the state
is untouched.  The `ending`/`next` branches call `triggerEnding` and
`advanceToNextScene`, which mutate no stat field. -/
def settleStream (full : String) (st : WorldState) : WorldState :=
  match settleParse full with
  | none => st
  | some g =>
    match getField g "effects" with
    | some e => if jsTruthy e then applyEffects st (effectsEntries e) else st
    | none => st

/-! ## Helper lemmas -/

/-- The four bounded stats all lie in [0, 100]. -/
def StatsIn01 (s : WorldState) : Prop :=
  0 ≤ s.train_stability ∧ s.train_stability ≤ 100 ∧
  0 ≤ s.reality_noise ∧ s.reality_noise ≤ 100 ∧
  0 ≤ s.inspector_trust ∧ s.inspector_trust ≤ 100 ∧
  0 ≤ s.anomaly_awareness ∧ s.anomaly_awareness ≤ 100

instance (s : WorldState) : Decidable (StatsIn01 s) := by
  unfold StatsIn01; infer_instance

lemma clamp01_nonneg (v : Int) : 0 ≤ clamp v 0 100 := le_max_left _ _

lemma clamp01_le (v : Int) : clamp v 0 100 ≤ 100 :=
  max_le (by norm_num) (min_le_left _ _)

lemma applyEffectStep_statsIn01 (s : WorldState) (kv : String × Int)
    (h : StatsIn01 s) : StatsIn01 (applyEffectStep s kv) := by
  obtain ⟨h1, h2, h3, h4, h5, h6, h7, h8⟩ := h
  unfold applyEffectStep
  split_ifs <;>
    exact ⟨by first | exact clamp01_nonneg _ | assumption,
           by first | exact clamp01_le _ | assumption,
           by first | exact clamp01_nonneg _ | assumption,
           by first | exact clamp01_le _ | assumption,
           by first | exact clamp01_nonneg _ | assumption,
           by first | exact clamp01_le _ | assumption,
           by first | exact clamp01_nonneg _ | assumption,
           by first | exact clamp01_le _ | assumption⟩

lemma applyEffects_statsIn01 (d : List (String × Int)) (s : WorldState)
    (h : StatsIn01 s) : StatsIn01 (applyEffects s d) := by
  induction d generalizing s with
  | nil => exact h
  | cons kv rest ih => exact ih _ (applyEffectStep_statsIn01 s kv h)

lemma applyEffectStep_flags (s : WorldState) (kv : String × Int) :
    (applyEffectStep s kv).flags = s.flags := by
  unfold applyEffectStep; split_ifs <;> rfl

lemma applyEffectStep_playedScenes (s : WorldState) (kv : String × Int) :
    (applyEffectStep s kv).playedScenes = s.playedScenes := by
  unfold applyEffectStep; split_ifs <;> rfl

lemma applyEffectStep_currentSceneId (s : WorldState) (kv : String × Int) :
    (applyEffectStep s kv).currentSceneId = s.currentSceneId := by
  unfold applyEffectStep; split_ifs <;> rfl

lemma applyEffectStep_dialogHistory (s : WorldState) (kv : String × Int) :
    (applyEffectStep s kv).dialogHistory = s.dialogHistory := by
  unfold applyEffectStep; split_ifs <;> rfl

lemma applyEffectStep_isBgmMuted (s : WorldState) (kv : String × Int) :
    (applyEffectStep s kv).isBgmMuted = s.isBgmMuted := by
  unfold applyEffectStep; split_ifs <;> rfl

lemma applyEffects_flags (d : List (String × Int)) (s : WorldState) :
    (applyEffects s d).flags = s.flags := by
  induction d generalizing s with
  | nil => rfl
  | cons kv rest ih => exact (ih _).trans (applyEffectStep_flags s kv)

lemma applyEffects_playedScenes (d : List (String × Int)) (s : WorldState) :
    (applyEffects s d).playedScenes = s.playedScenes := by
  induction d generalizing s with
  | nil => rfl
  | cons kv rest ih => exact (ih _).trans (applyEffectStep_playedScenes s kv)

lemma applyEffects_currentSceneId (d : List (String × Int)) (s : WorldState) :
    (applyEffects s d).currentSceneId = s.currentSceneId := by
  induction d generalizing s with
  | nil => rfl
  | cons kv rest ih => exact (ih _).trans (applyEffectStep_currentSceneId s kv)

lemma applyEffects_dialogHistory (d : List (String × Int)) (s : WorldState) :
    (applyEffects s d).dialogHistory = s.dialogHistory := by
  induction d generalizing s with
  | nil => rfl
  | cons kv rest ih => exact (ih _).trans (applyEffectStep_dialogHistory s kv)

lemma applyEffects_isBgmMuted (d : List (String × Int)) (s : WorldState) :
    (applyEffects s d).isBgmMuted = s.isBgmMuted := by
  induction d generalizing s with
  | nil => rfl
  | cons kv rest ih => exact (ih _).trans (applyEffectStep_isBgmMuted s kv)

lemma applyEffectStep_train_stability_ne (s : WorldState) (kv : String × Int)
    (h : kv.1 ≠ "train_stability") :
    (applyEffectStep s kv).train_stability = s.train_stability := by
  unfold applyEffectStep; split_ifs <;> rfl

lemma applyEffects_train_stability_ne (d : List (String × Int)) (s : WorldState)
    (h : ∀ kv ∈ d, kv.1 ≠ "train_stability") :
    (applyEffects s d).train_stability = s.train_stability := by
  induction d generalizing s with
  | nil => rfl
  | cons kv rest ih =>
    exact (ih _ fun x hx => h x (List.mem_cons_of_mem kv hx)).trans
      (applyEffectStep_train_stability_ne s kv (h kv (List.mem_cons_self kv rest)))

lemma applyEffectStep_loop_ne (s : WorldState) (kv : String × Int)
    (h : kv.1 ≠ "loop") : (applyEffectStep s kv).loop = s.loop := by
  unfold applyEffectStep; split_ifs <;> first | rfl | simp_all

lemma applyEffects_loop_ne (d : List (String × Int)) (s : WorldState)
    (h : ∀ kv ∈ d, kv.1 ≠ "loop") : (applyEffects s d).loop = s.loop := by
  induction d generalizing s with
  | nil => rfl
  | cons kv rest ih =>
    exact (ih _ fun x hx => h x (List.mem_cons_of_mem kv hx)).trans
      (applyEffectStep_loop_ne s kv (h kv (List.mem_cons_self kv rest)))

lemma applyEffectStep_id_of_absent (s : WorldState) (kv : String × Int)
    (h1 : kv.1 ≠ "loop") (h2 : kv.1 ≠ "train_stability")
    (h3 : kv.1 ≠ "reality_noise") (h4 : kv.1 ≠ "inspector_trust")
    (h5 : kv.1 ≠ "anomaly_awareness") (h6 : kv.1 ≠ "sceneCount")
    (h7 : kv.1 ≠ "turnCount") (h8 : kv.1 ≠ "bgmVolume")
    (_h9 : kv.1 ≠ "currentSceneId") (_h10 : kv.1 ≠ "dialogHistory")
    (_h11 : kv.1 ≠ "isBgmMuted") :
    applyEffectStep s kv = s := by
  unfold applyEffectStep
  split_ifs <;> first | rfl | simp_all

/-! ## Claim theorems -/

/-- C2.  For every world state whose four stats lie in [0,100] and every
effect-deltas list of arbitrary integer magnitudes, after `applyEffects`
each of the four stats again lies in [0,100]; consequently any
composition `applyEffects (applyEffects s d1) d2` is stat-wise bounded
in [0,100]. -/
theorem c2_clamp_law (s : WorldState) (d1 d2 : List (String × Int))
    (h : StatsIn01 s) :
    StatsIn01 (applyEffects s d1) ∧
    StatsIn01 (applyEffects (applyEffects s d1) d2) :=
  ⟨applyEffects_statsIn01 d1 s h,
   applyEffects_statsIn01 d2 _ (applyEffects_statsIn01 d1 s h)⟩

/-- Witness for C2 at a concrete state and over-magnitude deltas. -/
theorem c2_clamp_law_witness :
    StatsIn01 DEFAULT_STATE ∧
    StatsIn01 (applyEffects DEFAULT_STATE [("train_stability", -99999)]) ∧
    StatsIn01 (applyEffects (applyEffects DEFAULT_STATE [("train_stability", -99999)])
      [("reality_noise", 99999)]) :=
  ⟨by decide,
   c2_clamp_law DEFAULT_STATE [("train_stability", -99999)] [("reality_noise", 99999)]
     (by decide)⟩

/-- C3, counterexample.  `applyEffects` is not restricted to the four
stats: a deltas map naming `sceneCount` add-and-clamps that field too,
so the claim that every non-stat field is left unchanged is false. -/
theorem c3_counterexample :
    (applyEffects DEFAULT_STATE [("sceneCount", 7)]).sceneCount = 7 ∧
    DEFAULT_STATE.sceneCount = 0 ∧
    decide ((applyEffects DEFAULT_STATE [("sceneCount", 7)]).sceneCount
      = DEFAULT_STATE.sceneCount) = false := by
  decide

/-- C3, amended.  `applyEffects` adds-and-clamps every key present in
both the deltas and the world state except `flags` and `playedScenes` —
including the non-stat numeric fields `loop`, `sceneCount`, `turnCount`
and `bgmVolume` — keys absent from the world state are ignored, `flags`
and `playedScenes` are never touched, and any field not named in the
deltas is left unchanged (shown here for a stat, `train_stability`, and
a non-stat, `loop`).  Deltas naming `currentSceneId`, `dialogHistory` or
`isBgmMuted` are outside the integer model — the source passes its
`key in worldState` guard for them and overwrites those fields with
JS-coerced values — so the unknown-key conjunct excludes those three
keys by hypothesis. -/
theorem c3_amended :
    (∀ (s : WorldState) (d : List (String × Int)),
      (applyEffects s d).flags = s.flags ∧
      (applyEffects s d).playedScenes = s.playedScenes) ∧
    (∀ (s : WorldState) (v : Int),
      applyEffects s [("loop", v)] = { s with loop := clamp (s.loop + v) 0 100 } ∧
      applyEffects s [("sceneCount", v)]
        = { s with sceneCount := clamp (s.sceneCount + v) 0 100 } ∧
      applyEffects s [("turnCount", v)]
        = { s with turnCount := clamp (s.turnCount + v) 0 100 }) ∧
    (∀ (s : WorldState) (k : String) (v : Int),
      k ≠ "loop" → k ≠ "train_stability" → k ≠ "reality_noise" →
      k ≠ "inspector_trust" → k ≠ "anomaly_awareness" → k ≠ "sceneCount" →
      k ≠ "turnCount" → k ≠ "bgmVolume" →
      k ≠ "currentSceneId" → k ≠ "dialogHistory" → k ≠ "isBgmMuted" →
      applyEffects s [(k, v)] = s) ∧
    (∀ (s : WorldState) (d : List (String × Int)),
      (∀ kv ∈ d, kv.1 ≠ "train_stability") →
      (applyEffects s d).train_stability = s.train_stability) ∧
    (∀ (s : WorldState) (d : List (String × Int)),
      (∀ kv ∈ d, kv.1 ≠ "loop") → (applyEffects s d).loop = s.loop) := by
  refine ⟨fun s d => ⟨applyEffects_flags d s, applyEffects_playedScenes d s⟩,
    fun s v => ⟨?_, ?_, ?_⟩,
    fun s k v h1 h2 h3 h4 h5 h6 h7 h8 h9 h10 h11 =>
      applyEffectStep_id_of_absent s (k, v) h1 h2 h3 h4 h5 h6 h7 h8 h9 h10 h11,
    fun s d h => applyEffects_train_stability_ne d s h,
    fun s d h => applyEffects_loop_ne d s h⟩ <;>
    simp [applyEffects, applyEffectStep]

/-- Witness for C3 amended at concrete inputs. -/
theorem c3_amended_witness :
    (applyEffects DEFAULT_STATE [("loop", 5)]).flags = DEFAULT_STATE.flags ∧
    applyEffects DEFAULT_STATE [("no_such_key", 3)] = DEFAULT_STATE ∧
    (applyEffects DEFAULT_STATE [("loop", 5)]).train_stability
      = DEFAULT_STATE.train_stability :=
  ⟨(c3_amended.1 DEFAULT_STATE [("loop", 5)]).1,
   c3_amended.2.2.1 DEFAULT_STATE "no_such_key" 3 (by decide) (by decide) (by decide)
     (by decide) (by decide) (by decide) (by decide) (by decide) (by decide)
     (by decide) (by decide),
   c3_amended.2.2.2.1 DEFAULT_STATE [("loop", 5)] (by decide)⟩

/-- C8.  Loop advance strictly increments the loop counter by one,
resets the turn counter, scene counter and visited-scene set to their
initial values, sets `reality_noise` to `min 100 (previous + 5)` and
`anomaly_awareness` to `min 100 (floor (previous * 0.5) + 10)` —
whatever the two random draws for stability and trust are. -/
theorem c8_loop_advance (s : WorldState) (r1 r2 : Int) :
    (startNextLoop s r1 r2).loop = s.loop + 1 ∧
    (startNextLoop s r1 r2).turnCount = 0 ∧
    (startNextLoop s r1 r2).sceneCount = 0 ∧
    (startNextLoop s r1 r2).playedScenes = [] ∧
    (startNextLoop s r1 r2).turnCount = DEFAULT_STATE.turnCount ∧
    (startNextLoop s r1 r2).sceneCount = DEFAULT_STATE.sceneCount ∧
    (startNextLoop s r1 r2).playedScenes = DEFAULT_STATE.playedScenes ∧
    (startNextLoop s r1 r2).reality_noise = min 100 (s.reality_noise + 5) ∧
    (startNextLoop s r1 r2).anomaly_awareness
      = min 100 (Int.fdiv s.anomaly_awareness 2 + 10) :=
  ⟨rfl, rfl, rfl, rfl, rfl, rfl, rfl, rfl, rfl⟩

/-- C4.  Ending evaluation is a deterministic function of the world
state: `checkEndings` agrees everywhere with the priority-walk
description in which the first ending of the order
`train_anomaly, detained, awakening, normal_arrival` whose predicate
holds is returned, except that `normal_arrival` is additionally gated
on `sceneCount ≥ 5` (its being last makes a skip produce no ending);
and a state with `train_stability = 20` always selects the critical
instability ending `train_anomaly`, whatever the other stats. -/
theorem c4_ending_priority :
    (∀ st : WorldState, checkEndings st = checkEndingsSpec st) ∧
    (∀ st : WorldState, st.train_stability = 20 →
      checkEndings st = some "train_anomaly") := by
  constructor
  · intro st
    by_cases hsc : (5 : Int) ≤ st.sceneCount <;>
    cases hta : endingCondition "train_anomaly" st <;>
    cases hd : endingCondition "detained" st <;>
    cases ha : endingCondition "awakening" st <;>
    cases hna : endingCondition "normal_arrival" st <;>
    simp_all [checkEndings, checkEndingsSpec, endingOrder, checkEndingsGo,
      List.find?, not_le]
    rw [decide_eq_false (not_le.mpr hsc)]
  · intro st h
    simp [checkEndings, endingOrder, checkEndingsGo, endingCondition, h]

/-- Witness for C4 at a concrete state with stability 20. -/
theorem c4_ending_priority_witness :
    ({ DEFAULT_STATE with train_stability := 20 } : WorldState).train_stability = 20 ∧
    checkEndings { DEFAULT_STATE with train_stability := 20 } = some "train_anomaly" :=
  ⟨rfl, c4_ending_priority.2 { DEFAULT_STATE with train_stability := 20 } rfl⟩

/-- C5.  Admission control of the dialogue session manager: from an idle
state, a first non-empty submission after the cooldown is admitted
(stream started, turn counter incremented, request time recorded); a
second submission within the cooldown window is a silent no-op that
leaves the session state exactly unchanged; after the first session
settles, a third submission once the cooldown has elapsed is admitted
again; and from any state that is still streaming, a submission is
always a no-op, so at most one streaming session is active at any
time. -/
theorem c5_admission_control (s0 : ChatState) (txt1 txt2 txt3 : String)
    (t1 t2 t3 : Int)
    (htxt1 : jsTrim txt1 ≠ "") (htxt3 : jsTrim txt3 ≠ "")
    (hidle : s0.isStreaming = false)
    (hcool1 : t1 - s0.lastRequestTime ≥ REQUEST_COOLDOWN_MS)
    (hbudget : s0.turnCount + 2 < 15)
    (hcool2 : t2 - t1 < REQUEST_COOLDOWN_MS)
    (hcool3 : t3 - t1 ≥ REQUEST_COOLDOWN_MS) :
    (handleChatSubmit s0 txt1 t1).2 = SubmitOutcome.streamStarted ∧
    (handleChatSubmit s0 txt1 t1).1.isStreaming = true ∧
    (handleChatSubmit s0 txt1 t1).1.turnCount = s0.turnCount + 1 ∧
    (handleChatSubmit s0 txt1 t1).1.lastRequestTime = t1 ∧
    handleChatSubmit (handleChatSubmit s0 txt1 t1).1 txt2 t2
      = ((handleChatSubmit s0 txt1 t1).1, SubmitOutcome.rejected) ∧
    (handleChatSubmit (streamSettled (handleChatSubmit s0 txt1 t1).1) txt3 t3).2
      = SubmitOutcome.streamStarted ∧
    (∀ (s : ChatState) (txt : String) (now : Int), s.isStreaming = true →
      handleChatSubmit s txt now = (s, SubmitOutcome.rejected)) := by
  have hstep : handleChatSubmit s0 txt1 t1
      = (⟨t1, true, s0.turnCount + 1⟩, SubmitOutcome.streamStarted) := by
    unfold handleChatSubmit
    rw [if_neg htxt1, if_neg (by omega), if_neg (by simp [hidle])]
    simp only []
    rw [if_neg (by simp; omega)]
  have hbusy : ∀ (s : ChatState) (txt : String) (now : Int),
      s.isStreaming = true → handleChatSubmit s txt now = (s, SubmitOutcome.rejected) := by
    intro s txt now hs
    unfold handleChatSubmit
    split_ifs with e1 e2 <;> simp_all
  refine ⟨by rw [hstep], by rw [hstep], by rw [hstep], by rw [hstep], ?_, ?_, hbusy⟩
  · rw [hstep]
    exact hbusy _ txt2 t2 rfl
  · rw [hstep]
    unfold streamSettled handleChatSubmit
    rw [if_neg htxt3, if_neg (by simp; omega)]
    simp only []
    rw [if_neg (by simp)]
    rw [if_neg (by simp; omega)]

/-- Witness for C5 at concrete times: submissions at 2000 ms and
3000 ms (within the 1500 ms cooldown), then at 3600 ms after the first
session settles. -/
theorem c5_admission_control_witness :
    (handleChatSubmit ⟨0, false, 0⟩ "hi" 2000).2 = SubmitOutcome.streamStarted ∧
    handleChatSubmit (handleChatSubmit ⟨0, false, 0⟩ "hi" 2000).1 "again" 3000
      = ((handleChatSubmit ⟨0, false, 0⟩ "hi" 2000).1, SubmitOutcome.rejected) ∧
    (handleChatSubmit (streamSettled (handleChatSubmit ⟨0, false, 0⟩ "hi" 2000).1)
      "go" 3600).2 = SubmitOutcome.streamStarted := by
  have h := c5_admission_control ⟨0, false, 0⟩ "hi" "again" "go" 2000 3000 3600
    (by decide) (by decide) rfl (by decide) (by decide) (by decide) (by decide)
  exact ⟨h.1, h.2.2.2.2.1, h.2.2.2.2.2.1⟩

/-- C6.  The read loop of `streamLLM` can never take the stall branch:
the stall window is only inspected at the loop head, which runs either
at stream start or immediately after a resolved read has just reset
`lastChunkTime`, so for every chunk schedule the loop completes or hangs
awaiting the next read — a session with no chunk inside the 15 s window
hangs instead of terminating with the connection-timeout message — and
the 45-second `setTimeout` callback leaves the abort state untouched,
so it bounds nothing. -/
theorem c6_watchdogs_ineffective :
    (∀ (t0 : Int) (events : List Int) (closes : Bool),
      streamReadLoop t0 events closes = LoopOutcome.completed ∨
      streamReadLoop t0 events closes = LoopOutcome.hung) ∧
    streamReadLoop 0 [] false = LoopOutcome.hung ∧
    (∀ aborted : Bool, hardTimeoutHandler aborted = aborted) := by
  have go : ∀ (events : List Int) (closes : Bool) (t : Int),
      readLoopGo closes t t events = LoopOutcome.completed ∨
      readLoopGo closes t t events = LoopOutcome.hung := by
    intro events
    induction events with
    | nil => intro closes t; cases closes <;> simp [readLoopGo]
    | cons a rest ih =>
      intro closes t
      simpa [readLoopGo] using ih closes a
  exact ⟨fun t0 events closes => go events closes t0, rfl, fun _ => rfl⟩

/-- C9.  Condition evaluation in `checkConditions`: a non-flag condition
key that does not exist on the world state is silently skipped (removing
the entry does not change the result), and for a key bound to a number
the supplied bounds of a range requirement must all hold conjunctively,
an exact numeric requirement demanding strict equality. -/
theorem c9_condition_eval :
    (∀ (st : WorldState) (conds : List (String × Req)) (key : String) (req : Req),
      key ≠ "flags" → stateLookup st key = none →
      checkConditions ((key, req) :: conds) st = checkConditions conds st) ∧
    (∀ (st : WorldState) (key : String) (v : Rat) (lo hi ge le : Option Rat),
      key ≠ "flags" → stateLookup st key = some (.num v) →
      (checkConditions [(key, .range lo hi ge le)] st = true ↔
        (∀ m ∈ lo, m ≤ v) ∧ (∀ m ∈ hi, v ≤ m) ∧
        (∀ m ∈ ge, m ≤ v) ∧ (∀ m ∈ le, v ≤ m))) ∧
    (∀ (st : WorldState) (key : String) (q v : Rat),
      key ≠ "flags" → stateLookup st key = some (.num v) →
      (checkConditions [(key, .num q)] st = true ↔ v = q)) := by
  refine ⟨?_, ?_, ?_⟩
  · intro st conds key req hk hl
    simp [checkConditions, evalConditionEntry, hk, hl]
  · intro st key v lo hi ge le hk hl
    simp only [checkConditions, List.all_cons, List.all_nil, Bool.and_true,
      evalConditionEntry, if_neg hk, hl]
    cases lo <;> cases hi <;> cases ge <;> cases le <;>
      simp [jsLt, jsGt, jsToNumber, not_lt, and_assoc]
  · intro st key q v hk hl
    simp [checkConditions, evalConditionEntry, hk, hl, jsStrictEqNum]

/-- Witness for C9: an unknown key is skipped and in-range bounds hold
on the default state. -/
theorem c9_condition_eval_witness :
    checkConditions [("no_such_key", Req.num 5)] DEFAULT_STATE
      = checkConditions [] DEFAULT_STATE ∧
    (checkConditions [("loop", Req.range (some 1) (some 3) none none)] DEFAULT_STATE
      = true ↔
      (∀ m ∈ (some (1 : Rat) : Option Rat), m ≤ (1 : Rat)) ∧
      (∀ m ∈ (some (3 : Rat) : Option Rat), (1 : Rat) ≤ m) ∧
      (∀ m ∈ (none : Option Rat), m ≤ (1 : Rat)) ∧
      (∀ m ∈ (none : Option Rat), (1 : Rat) ≤ m)) :=
  ⟨c9_condition_eval.1 DEFAULT_STATE [] "no_such_key" (Req.num 5) (by decide) rfl,
   c9_condition_eval.2.1 DEFAULT_STATE "loop" 1 (some 1) (some 3) none none
     (by decide) rfl⟩

/-- C10.  A flag-equality condition on a flag key absent from the flags
map fails: with any required value, `checkConditions` returns false for
the whole condition list, unlike the silent skip of unknown numeric
state keys. -/
theorem c10_absent_flag_fails (st : WorldState) (rest : List (String × Req))
    (name : String) (fv : FlagVal)
    (h : lookupFlag st.flags name = none) :
    checkConditions (("flags", Req.flagMap [(name, fv)]) :: rest) st = false := by
  simp [checkConditions, evalConditionEntry, h, flagEq]

/-- Witness for C10: the fresh default state has no flags, so a
condition requiring `met_inspector = true` fails. -/
theorem c10_absent_flag_fails_witness :
    checkConditions [("flags", Req.flagMap [("met_inspector", FlagVal.b true)])]
      DEFAULT_STATE = false :=
  c10_absent_flag_fails DEFAULT_STATE [] "met_inspector" (FlagVal.b true) rfl

/-- A stream whose trailing structured block is truncated: the closing
fence is never received (no occurrence of ``` after the opening
```` ```json ````) and the closing brace of the directive object is
missing. -/
def c1Truncated : String :=
  "The train shudders.\n```json\n\x7b\"effects\":\x7b\"train_stability\":-10\x7d,\"next\":null"

/-- C1, counterexample.  Settling this truncated stream content mutates
a stat: no closing fence follows the opening ```` ```json ```` (the
extraction regex accepts end of input instead), the appended repair
brace completes the object, the repaired text parses, and
`train_stability` drops from 80 to 70. -/
theorem c1_counterexample :
    (afterFirstSub ("```json".data) c1Truncated.data).map
      (fun r => containsSub ("```".data) r) = some false ∧
    (settleStream c1Truncated DEFAULT_STATE).train_stability = 70 ∧
    DEFAULT_STATE.train_stability = 80 ∧
    decide ((settleStream c1Truncated DEFAULT_STATE).train_stability
      = DEFAULT_STATE.train_stability) = false := by
  decide

/-- C1, amended.  Settling a stream whose trailing structured block is
truncated can mutate stats: the extractor accepts end of input in place
of the closing fence and a single closing brace is appended when the
block does not end in one but has more opening than closing braces, so
a truncated directive whose repair parses as JSON is applied (shown at
`c1Truncated`, where `train_stability` moves to 70).  Mutation is
all-or-nothing: whenever the extraction-repair-parse pipeline fails,
settling leaves the whole world state untouched. -/
theorem c1_amended :
    (∀ (full : String) (st : WorldState), settleParse full = none →
      settleStream full st = st) ∧
    (settleStream c1Truncated DEFAULT_STATE).train_stability = 70 ∧
    (settleParse c1Truncated).isSome = true := by
  refine ⟨fun full st h => ?_, by decide, by decide⟩
  unfold settleStream
  rw [h]

/-- Witness for C1 amended: content with no fence at all parses to no
directive and settling is the identity. -/
theorem c1_amended_witness :
    settleParse "plain narrative with no fence" = none ∧
    settleStream "plain narrative with no fence" DEFAULT_STATE = DEFAULT_STATE :=
  ⟨rfl, c1_amended.1 "plain narrative with no fence" DEFAULT_STATE rfl⟩

/-- The concrete stream of the streaming-parser scenario: reasoning span,
then visible narrative, then a fenced structured block. -/
def c7Scenario : String := "<think>hidden</think>visible text\n```json\n\x7b\x7d\n```"

/-- C7, counterexample.  The unclosed-opening-marker rule is not case
tolerant: `"a< Think secret"` contains a tolerant opening marker
(`<\s*think` matches at index 1) with no closing marker anywhere, yet
nothing is suppressed — the display equals the input instead of `"a"` —
because the guard is the case-sensitive literal `includes('<think')`. -/
theorem c7_counterexample :
    (matchOpenStart ("a< Think secret".data.drop 1)).isSome = true ∧
    containsSub ("</think>".data) ("a< Think secret".data) = false ∧
    containsSub ("<think".data) ("a< Think secret".data) = false ∧
    displayOf "a< Think secret" = "a< Think secret" ∧
    decide (displayOf "a< Think secret" = "a") = false := by
  decide

/-- C7, amended.  For the delta sequence spelling the scenario, the
final displayed narrative is exactly `"visible text"` and no increment
(prefix of the accumulated content) ever displays the hidden reasoning;
complete reasoning spans are stripped non-greedily, case and whitespace
tolerantly; orphaned closing markers are removed tolerantly; but the
unclosed-opening-marker suppression triggers only when the literal
lowercase `<think` occurs in the candidate narrative (the cut point
itself then being the earliest tolerant marker) — a case or whitespace
variant of an unclosed opening marker without that literal anywhere is
displayed verbatim. -/
theorem c7_amended :
    displayOf c7Scenario = "visible text" ∧
    (List.range (c7Scenario.length + 1)).all
      (fun n => !containsSub ("hidden".data)
        (displayNarrativeList (currentNarrativeOf (c7Scenario.data.take n)))) = true ∧
    displayOf "<THINK> a </ThInK>b" = "b" ∧
    displayOf "x</think>y" = "xy" ∧
    displayOf "x< / tHiNk >y" = "xy" ∧
    displayOf "a<think>b" = "a" ∧
    displayOf "a< Think b<think>c" = "a" ∧
    displayOf "a< Think b" = "a< Think b" := by
  decide

end NightTrain
